import Mathlib

set_option linter.unusedVariables false

/-!
Verification of the data-collector slice: the storage-runner layer
(`redash/storage_runner/__init__.py`, `redash/storage_runner/minio.py`)
and the public SQL submission endpoint
(`redash/handlers/custom_sql_api.py`), shallowly embedded in Lean.

External collaborators (the MinIO client library, `json_loads`, the job
queue, the `DataSource`/`QueryResult` stores) are modelled as explicit
function parameters; exceptions are modelled with `Except`/`Option`.
-/

/-- A JSON-ish value appearing in result rows (object names, etags are
strings; sizes are integers; timestamps are carried as strings). -/
inductive PyValue where
  | str (s : String)
  | int (n : Int)
deriving DecidableEq, Repr

/-- A result row: a Python dict, embedded as an association list in
insertion order. -/
abbrev Row := List (String × PyValue)

/-- A column descriptor `{"name": ..., "type": ...}`. -/
structure Column where
  name : String
  type : String
deriving DecidableEq, Repr

/-- The uniform tabular result shape `{"columns": ..., "rows": ...}`. -/
structure TabularResult where
  columns : List Column
  rows : List Row
deriving DecidableEq, Repr

/-- Column type constant `TYPE_STRING` from `storage_runner/__init__.py`. -/
def TYPE_STRING : String := "string"

/-- Column type constant `TYPE_DATE` from `storage_runner/__init__.py`. -/
def TYPE_DATE : String := "date"

/-- Column type constant `TYPE_INTEGER` from `storage_runner/__init__.py`. -/
def TYPE_INTEGER : String := "integer"

/-- Python truthiness-based `x or d` on an optional string: `None` and the
empty string are falsy and fall through to the default. -/
def pyOr (x d : Option String) : Option String :=
  match x with
  | none => d
  | some s => if s = "" then d else some s

/-- Python `str()` of an optional string, as used when interpolating
`bucket_name` into an f-string error message. -/
def pyStrOpt : Option String → String
  | none => "None"
  | some s => s

/-- An object yielded by the external MinIO client's `list_objects`
(attributes `object_name`, `last_modified`, `size`, `etag`). -/
structure MinioObject where
  object_name : String
  last_modified : String
  size : Int
  etag : String
deriving DecidableEq, Repr

/-- The dict built for each object by `MinioRunner.list_objects`
(keys `name`, `last_modified`, `size`, `etag`). -/
structure ObjEntry where
  name : String
  last_modified : String
  size : Int
  etag : String
deriving DecidableEq, Repr

/-- The external MinIO client, abstracted to its one consulted capability:
listing a bucket either yields objects or raises (an error message). -/
abbrev MinioClient := Option String → Except String (List MinioObject)

/-- The runner configuration bag, restricted to the one key the embedded
operations read (`configuration.get("bucket")`); endpoint/credential keys
only parameterize the external client, which is abstracted by
`MinioClient`. `none` models an absent `bucket` key. -/
structure MinioConfiguration where
  bucket : Option String
deriving DecidableEq, Repr

/-- The parsed query command: `json_loads(query)` restricted to the one
key `run_query` reads (`query_params.get("bucket", ...)`); `none` models
an absent `bucket` key. -/
structure QueryParams where
  bucket : Option String
deriving DecidableEq, Repr

/-- Python `query_params.get("bucket", default)`: the key's value when
present, the default otherwise. -/
def dictGetBucket (query_params : QueryParams) (default : Option String) :
    Option String :=
  match query_params.bucket with
  | some v => some v
  | none => default

namespace MinioRunner

/-- Embedding of `MinioRunner.list_objects`: resolve the bucket with
Python `or` against the configured default, consult the client, wrap each
object into its dict, and on client failure raise the
`Failed to list objects from bucket ...` message. -/
def list_objects (configuration : MinioConfiguration) (client : MinioClient)
    (bucket_name : Option String) : Except String (List ObjEntry) :=
  let b := pyOr bucket_name configuration.bucket
  match client b with
  | Except.ok objects =>
      Except.ok (objects.map fun obj =>
        ⟨obj.object_name, obj.last_modified, obj.size, obj.etag⟩)
  | Except.error e =>
      Except.error ("Failed to list objects from bucket " ++ pyStrOpt b ++ ": " ++ e)

/-- Embedding of `MinioRunner.test_connection`: call `list_objects` with
no explicit bucket; return `True` on success, re-raise
`MinIO connection test failed: ...` on failure. -/
def test_connection (configuration : MinioConfiguration) (client : MinioClient) :
    Except String Bool :=
  match list_objects configuration client none with
  | Except.ok _ => Except.ok true
  | Except.error e => Except.error ("MinIO connection test failed: " ++ e)

/-- Embedding of `MinioRunner.run_query`: parse the command with
`json_loads` (abstracted as `jsonLoads`), resolve the bucket via
`query_params.get("bucket", configuration.get("bucket"))`, list objects,
and build the fixed four-column result; every failure along the way is
caught and returned as `(None, str(e))`. The `user` argument is accepted
and ignored, as in the source. -/
def run_query (configuration : MinioConfiguration) (client : MinioClient)
    (jsonLoads : String → Except String QueryParams)
    (query : String) (_user : Option String) :
    Option TabularResult × Option String :=
  match jsonLoads query with
  | Except.error e => (none, some e)
  | Except.ok query_params =>
    let bucket_name : Option String := dictGetBucket query_params configuration.bucket
    match list_objects configuration client bucket_name with
    | Except.error e => (none, some e)
    | Except.ok objects =>
      let columns : List Column :=
        [⟨"object_name", "string"⟩, ⟨"last_modified", "date"⟩,
         ⟨"size", "integer"⟩, ⟨"etag", "string"⟩]
      let rows : List Row := objects.map fun obj =>
        [("object_name", PyValue.str obj.name),
         ("last_modified", PyValue.str obj.last_modified),
         ("size", PyValue.int obj.size),
         ("etag", PyValue.str obj.etag)]
      (some ⟨columns, rows⟩, none)

end MinioRunner

namespace BaseStorageRunner

/-- Embedding of `BaseStorageRunner.run_query`: same structure as the
MinIO runner's but with the abstract `self.list_objects` as a parameter
and the two-column shape (`object_name`, `last_modified`). -/
def run_query (configurationBucket : Option String)
    (list_objects : Option String → Except String (List ObjEntry))
    (jsonLoads : String → Except String QueryParams)
    (query : String) (_user : Option String) :
    Option TabularResult × Option String :=
  match jsonLoads query with
  | Except.error e => (none, some e)
  | Except.ok query_params =>
    let bucket_name : Option String := dictGetBucket query_params configurationBucket
    match list_objects bucket_name with
    | Except.error e => (none, some e)
    | Except.ok objects =>
      let columns : List Column :=
        [⟨"object_name", TYPE_STRING⟩, ⟨"last_modified", TYPE_DATE⟩]
      let rows : List Row := objects.map fun obj =>
        [("object_name", PyValue.str obj.name),
         ("last_modified", PyValue.str obj.last_modified)]
      (some ⟨columns, rows⟩, none)

end BaseStorageRunner

/-- A storage-runner class, reduced to the three classmethods the registry
consults: `type()`, `name()`, `enabled()`. -/
structure StorageRunnerClass where
  type : String
  name : String
  enabled : Bool
deriving DecidableEq, Repr

/-- The registry: the module-level `storage_runners` dict, embedded as a
lookup function. -/
abbrev StorageRegistry := String → Option StorageRunnerClass

/-- The initial empty `storage_runners = {}` dict. -/
def storageRunnersInit : StorageRegistry := fun _ => none

/-- Embedding of `register_storage`: when the class reports itself
enabled, bind its `type()` to the class (dict assignment, overwriting any
previous binding); otherwise leave the registry untouched. -/
def register_storage (storage_runner_class : StorageRunnerClass)
    (storage_runners : StorageRegistry) : StorageRegistry :=
  if storage_runner_class.enabled then
    fun k => if k = storage_runner_class.type
             then some storage_runner_class
             else storage_runners k
  else storage_runners

/-- A configured data source record, reduced to the two fields the slice
consults: its unique `name` (used by the handler's lookup) and its
configured runner `type`. -/
structure DataSource where
  name : String
  type : String
deriving DecidableEq, Repr

/-- The handler's `error_messages` dict. -/
def error_messages : List (String × String) :=
  [("missing_fields", "Request must include 'query' and 'db_name' fields."),
   ("missing_query", "Request must include 'query' fields."),
   ("missing_db_name", "Request must include 'db_name' fields."),
   ("database_not_found", "Database name not found."),
   ("query_timeout", "Query execution timeout."),
   ("query_execution_failed", "Query execution failed."),
   ("sql_syntax_error", "SQL syntax error."),
   ("internal_server_error", "Internal server error occurred. Please try again later.")]

/-- Total lookup into `error_messages` (every key used by the handler is
present in the dict). -/
def errMsg (k : String) : String := (error_messages.lookup k).getD ""

/-- A handler response: `jsonify({"status": "success", "result": rows})`
with HTTP 200, or `error_response(message, http_status)` producing
`{"status": "fail", "message": message}` with the given status. -/
inductive Response where
  | success (rows : List Row)
  | fail (message : String) (http_status : Nat)
deriving DecidableEq, Repr

/-- Observable outcome of one `post` call: the response, whether
`enqueue_query` was invoked, and how many `sleep(1)` and `job.refresh()`
calls the poll loop performed. -/
structure PostOutcome where
  response : Response
  enqueued : Bool
  sleeps : Nat
  refreshes : Nat
deriving DecidableEq, Repr

/-- Embedding of the handler's poll loop
(`while job.result is None and try_count < 10: try_count += 1; sleep(1);
job.refresh()`). `obs r` is `job.result` as observed after `r` refreshes;
`remaining` is `10 - try_count`. Returns the accumulated sleep count,
refresh count, and the final `job.result`. -/
def poll (obs : Nat → Option Nat) : Nat → Nat → Nat → Nat × Nat × Option Nat
  | remaining, sleeps, refreshes =>
    match obs refreshes, remaining with
    | some v, _ => (sleeps, refreshes, some v)
    | none, 0 => (sleeps, refreshes, none)
    | none, r + 1 => poll obs r (sleeps + 1) (refreshes + 1)

/-- Embedding of `PublicSQLExecutionResource.post` on its non-raising
paths. `body` is `request.get_json()` (`none`: no JSON body; values are
opaque strings). `data_sources` is the `DataSource` table consulted by
name. `jobObs` abstracts the enqueued job: `jobObs r` is `job.result`
after `r` refreshes. `query_results` abstracts the `QueryResult` store
consulted by id; the success response carries only `data["rows"]`. -/
def post (body : Option (List (String × String))) (data_sources : List DataSource)
    (jobObs : Nat → Option Nat) (query_results : Nat → Option TabularResult) :
    PostOutcome :=
  match body with
  | none => ⟨Response.fail (errMsg "missing_fields") 400, false, 0, 0⟩
  | some query_data =>
    if query_data.isEmpty then
      ⟨Response.fail (errMsg "missing_fields") 400, false, 0, 0⟩
    else if (query_data.lookup "query").isNone then
      ⟨Response.fail (errMsg "missing_query") 400, false, 0, 0⟩
    else if (query_data.lookup "db_name").isNone then
      ⟨Response.fail (errMsg "missing_db_name") 400, false, 0, 0⟩
    else
      let db_name := (query_data.lookup "db_name").getD ""
      match data_sources.find? (fun d => d.name == db_name) with
      | none => ⟨Response.fail (errMsg "database_not_found") 404, false, 0, 0⟩
      | some _ =>
        let r := poll jobObs 10 0 0
        match r.2.2 with
        | none => ⟨Response.fail (errMsg "query_timeout") 408, true, r.1, r.2.1⟩
        | some query_result_id =>
          match query_results query_result_id with
          | some query_result =>
              ⟨Response.success query_result.rows, true, r.1, r.2.1⟩
          | none =>
              ⟨Response.fail (errMsg "query_execution_failed") 500, true, r.1, r.2.1⟩

/-! ## Helper lemmas -/

/-- Resolving a non-empty explicit bucket ignores the default. -/
theorem pyOr_some_ne (s : String) (d : Option String) (hs : s ≠ "") :
    pyOr (some s) d = some s := by
  simp [pyOr, hs]

/-! ## C9: last registration wins -/

/-- C9: registering two enabled runner classes that report the same type
string, one after the other, leaves lookup of that type yielding the
second class: the later registration silently overwrites the earlier
one, over any prior registry state. -/
theorem register_storage_last_wins (reg : StorageRegistry)
    (A B : StorageRunnerClass) (t : String)
    (hA : A.enabled = true) (hB : B.enabled = true)
    (hAt : A.type = t) (hBt : B.type = t) :
    register_storage B (register_storage A reg) t = some B := by
  simp [register_storage, hA, hB, hAt, hBt]

/-- Witness for C9 at two concrete enabled classes of type "minio". -/
theorem register_storage_last_wins_witness :
    register_storage ⟨"minio", "MinioB", true⟩
      (register_storage ⟨"minio", "MinioA", true⟩ storageRunnersInit) "minio" =
      some ⟨"minio", "MinioB", true⟩ :=
  register_storage_last_wins storageRunnersInit ⟨"minio", "MinioA", true⟩
    ⟨"minio", "MinioB", true⟩ "minio" rfl rfl rfl rfl

/-! ## C10: registry invariant and disabled registration -/

/-- The registry well-formedness invariant: every stored key maps to a
runner class whose `type()` equals that key. -/
def registryWF (reg : StorageRegistry) : Prop :=
  ∀ k c, reg k = some c → c.type = k

/-- C10: `register_storage` preserves the key/type invariant, and a class
reporting `enabled() = false` leaves the registry mapping entirely
unchanged — in particular an existing registration under the same type
string survives a disabled re-registration attempt. -/
theorem register_storage_invariant (reg : StorageRegistry)
    (c : StorageRunnerClass) :
    (registryWF reg → registryWF (register_storage c reg)) ∧
    (c.enabled = false →
      register_storage c reg = reg ∧
      ∀ prev, reg c.type = some prev →
        register_storage c reg c.type = some prev) := by
  constructor
  · intro h k cls hk
    unfold register_storage at hk
    split at hk
    · simp only at hk
      by_cases hkt : k = c.type
      · rw [if_pos hkt] at hk
        injection hk with hk
        rw [← hk, hkt]
      · rw [if_neg hkt] at hk
        exact h k cls hk
    · exact h k cls hk
  · intro hen
    have hreg : register_storage c reg = reg := by
      unfold register_storage
      rw [if_neg (by simp [hen])]
    exact ⟨hreg, fun prev hp => by rw [hreg]; exact hp⟩

/-- Witness for C10: the invariant holds after registering an enabled
class into the empty registry, and a disabled class leaves the empty
registry unchanged. -/
theorem register_storage_invariant_witness :
    registryWF (register_storage ⟨"minio", "MinIO", true⟩ storageRunnersInit) ∧
    register_storage ⟨"minio", "MinIO", false⟩ storageRunnersInit =
      storageRunnersInit :=
  ⟨(register_storage_invariant storageRunnersInit ⟨"minio", "MinIO", true⟩).1
      (fun _ _ h => nomatch h),
   ((register_storage_invariant storageRunnersInit
      ⟨"minio", "MinIO", false⟩).2 rfl).1⟩

/-! ## C6: omitted target equals explicit default target -/

/-- C6: for every runner configuration and fixed backend state,
`list_objects` with no explicit target returns the same result as
`list_objects` called with the configured default bucket explicitly. -/
theorem list_objects_default_equivalence (configuration : MinioConfiguration)
    (client : MinioClient) :
    MinioRunner.list_objects configuration client none =
      MinioRunner.list_objects configuration client configuration.bucket := by
  cases hb : configuration.bucket with
  | none => simp [MinioRunner.list_objects, pyOr, hb]
  | some s =>
      by_cases hs : s = "" <;>
        simp [MinioRunner.list_objects, pyOr, hb, hs]

/-! ## C8: test_connection mirrors list_objects -/

/-- C8: `test_connection` returns `True` exactly when `list_objects`
raises no exception; and whenever `list_objects` raises with message `m`,
`test_connection` raises a connectivity-failure message that contains
`m` (as its suffix). -/
theorem test_connection_spec (configuration : MinioConfiguration)
    (client : MinioClient) :
    (MinioRunner.test_connection configuration client = Except.ok true ↔
      ∃ l, MinioRunner.list_objects configuration client none = Except.ok l) ∧
    (∀ m, MinioRunner.list_objects configuration client none = Except.error m →
      MinioRunner.test_connection configuration client =
        Except.error ("MinIO connection test failed: " ++ m) ∧
      ∃ p, "MinIO connection test failed: " ++ m = p ++ m) := by
  constructor
  · constructor
    · intro h
      unfold MinioRunner.test_connection at h
      cases hl : MinioRunner.list_objects configuration client none with
      | ok l => exact ⟨l, rfl⟩
      | error e => rw [hl] at h; exact absurd h (by simp)
    · rintro ⟨l, hl⟩
      unfold MinioRunner.test_connection
      rw [hl]
  · intro m hm
    refine ⟨?_, "MinIO connection test failed: ", rfl⟩
    unfold MinioRunner.test_connection
    rw [hm]

/-- Witness for C8: a client that succeeds makes `test_connection` return
`True`; a client whose listing raises "boom" makes it raise the wrapped
connectivity message. -/
theorem test_connection_spec_witness :
    MinioRunner.test_connection ⟨some "b"⟩ (fun _ => Except.ok []) =
      Except.ok true ∧
    MinioRunner.test_connection ⟨some "b"⟩ (fun _ => Except.error "boom") =
      Except.error ("MinIO connection test failed: " ++
        "Failed to list objects from bucket b: boom") :=
  ⟨(test_connection_spec ⟨some "b"⟩ (fun _ => Except.ok [])).1.2 ⟨[], rfl⟩,
   ((test_connection_spec ⟨some "b"⟩ (fun _ => Except.error "boom")).2
      "Failed to list objects from bucket b: boom" rfl).1⟩

/-! ## C2: run_query never raises -/

/-- C2: for every command string, caller context, JSON decoder and
backend, `run_query` returns either `(result, None)` or
`(None, errorMessage)` — and a command whose decoding fails yields that
error string, never a crash. Stated for both `MinioRunner.run_query` and
`BaseStorageRunner.run_query`. -/
theorem run_query_never_raises (configuration : MinioConfiguration)
    (client : MinioClient) (configurationBucket : Option String)
    (lo : Option String → Except String (List ObjEntry))
    (jsonLoads : String → Except String QueryParams)
    (query : String) (user : Option String) :
    ((∃ r, MinioRunner.run_query configuration client jsonLoads query user =
        (some r, none)) ∨
     (∃ e, MinioRunner.run_query configuration client jsonLoads query user =
        (none, some e))) ∧
    (∀ m, jsonLoads query = Except.error m →
      MinioRunner.run_query configuration client jsonLoads query user =
        (none, some m)) ∧
    ((∃ r, BaseStorageRunner.run_query configurationBucket lo jsonLoads query user =
        (some r, none)) ∨
     (∃ e, BaseStorageRunner.run_query configurationBucket lo jsonLoads query user =
        (none, some e))) ∧
    (∀ m, jsonLoads query = Except.error m →
      BaseStorageRunner.run_query configurationBucket lo jsonLoads query user =
        (none, some m)) := by
  refine ⟨?_, ?_, ?_, ?_⟩
  · cases hj : jsonLoads query with
    | error e => exact Or.inr ⟨e, by simp [MinioRunner.run_query, hj]⟩
    | ok query_params =>
      cases hl : MinioRunner.list_objects configuration client
          (dictGetBucket query_params configuration.bucket) with
      | error e => exact Or.inr ⟨e, by simp [MinioRunner.run_query, hj, hl]⟩
      | ok objects =>
        refine Or.inl ⟨⟨[⟨"object_name", "string"⟩, ⟨"last_modified", "date"⟩,
            ⟨"size", "integer"⟩, ⟨"etag", "string"⟩],
          objects.map fun obj =>
            [("object_name", PyValue.str obj.name),
             ("last_modified", PyValue.str obj.last_modified),
             ("size", PyValue.int obj.size),
             ("etag", PyValue.str obj.etag)]⟩, ?_⟩
        simp [MinioRunner.run_query, hj, hl]
  · intro m hm
    simp [MinioRunner.run_query, hm]
  · cases hj : jsonLoads query with
    | error e => exact Or.inr ⟨e, by simp [BaseStorageRunner.run_query, hj]⟩
    | ok query_params =>
      cases hl : lo (dictGetBucket query_params configurationBucket) with
      | error e => exact Or.inr ⟨e, by simp [BaseStorageRunner.run_query, hj, hl]⟩
      | ok objects =>
        refine Or.inl ⟨⟨[⟨"object_name", TYPE_STRING⟩, ⟨"last_modified", TYPE_DATE⟩],
          objects.map fun obj =>
            [("object_name", PyValue.str obj.name),
             ("last_modified", PyValue.str obj.last_modified)]⟩, ?_⟩
        simp [BaseStorageRunner.run_query, hj, hl]
  · intro m hm
    simp [BaseStorageRunner.run_query, hm]

/-- Witness for C2: with a decoder that rejects every command, both
runners return the decoder's error string. -/
theorem run_query_never_raises_witness :
    MinioRunner.run_query ⟨some "b"⟩ (fun _ => Except.ok [])
      (fun _ => Except.error "not valid json") "oops" none =
      (none, some "not valid json") ∧
    BaseStorageRunner.run_query (some "b") (fun _ => Except.ok [])
      (fun _ => Except.error "not valid json") "oops" none =
      (none, some "not valid json") :=
  ⟨(run_query_never_raises ⟨some "b"⟩ (fun _ => Except.ok []) (some "b")
      (fun _ => Except.ok []) (fun _ => Except.error "not valid json")
      "oops" none).2.1 "not valid json" rfl,
   (run_query_never_raises ⟨some "b"⟩ (fun _ => Except.ok []) (some "b")
      (fun _ => Except.ok []) (fun _ => Except.error "not valid json")
      "oops" none).2.2.2 "not valid json" rfl⟩

/-! ## C7: row keys match the declared columns -/

/-- C7: whenever `MinioRunner.run_query` succeeds, every row of the
result carries exactly the declared column names as its key list —
object_name, last_modified, size, etag — no extra and no missing keys. -/
theorem run_query_row_keys (configuration : MinioConfiguration)
    (client : MinioClient) (jsonLoads : String → Except String QueryParams)
    (query : String) (user : Option String) (res : TabularResult) (row : Row)
    (h : MinioRunner.run_query configuration client jsonLoads query user =
      (some res, none))
    (hrow : row ∈ res.rows) :
    row.map Prod.fst = res.columns.map Column.name ∧
    res.columns.map Column.name =
      ["object_name", "last_modified", "size", "etag"] := by
  cases hj : jsonLoads query with
  | error e => simp [MinioRunner.run_query, hj] at h
  | ok query_params =>
    cases hl : MinioRunner.list_objects configuration client
        (dictGetBucket query_params configuration.bucket) with
    | error e => simp [MinioRunner.run_query, hj, hl] at h
    | ok objects =>
      simp only [MinioRunner.run_query, hj, hl, Prod.mk.injEq,
        Option.some.injEq] at h
      rw [← h.1] at hrow
      simp only [List.mem_map] at hrow
      obtain ⟨obj, _, hobj⟩ := hrow
      rw [← h.1, ← hobj]
      constructor <;> rfl

/-- Witness for C7: a concrete successful query over one object, whose
single row's keys are the four declared column names. -/
theorem run_query_row_keys_witness :
    MinioRunner.run_query ⟨some "b"⟩
      (fun _ => Except.ok [⟨"a.txt", "2023-09-09", 1, "e1"⟩])
      (fun _ => Except.ok ⟨none⟩) "cmd" none =
      (some ⟨[⟨"object_name", "string"⟩, ⟨"last_modified", "date"⟩,
              ⟨"size", "integer"⟩, ⟨"etag", "string"⟩],
             [[("object_name", PyValue.str "a.txt"),
               ("last_modified", PyValue.str "2023-09-09"),
               ("size", PyValue.int 1),
               ("etag", PyValue.str "e1")]]⟩, none) ∧
    [("object_name", PyValue.str "a.txt"),
     ("last_modified", PyValue.str "2023-09-09"),
     ("size", PyValue.int 1),
     ("etag", PyValue.str "e1")].map Prod.fst =
      ["object_name", "last_modified", "size", "etag"] :=
  ⟨rfl,
   (run_query_row_keys ⟨some "b"⟩
      (fun _ => Except.ok [⟨"a.txt", "2023-09-09", 1, "e1"⟩])
      (fun _ => Except.ok ⟨none⟩) "cmd" none
      ⟨[⟨"object_name", "string"⟩, ⟨"last_modified", "date"⟩,
        ⟨"size", "integer"⟩, ⟨"etag", "string"⟩],
       [[("object_name", PyValue.str "a.txt"),
         ("last_modified", PyValue.str "2023-09-09"),
         ("size", PyValue.int 1),
         ("etag", PyValue.str "e1")]]⟩
      [("object_name", PyValue.str "a.txt"),
       ("last_modified", PyValue.str "2023-09-09"),
       ("size", PyValue.int 1),
       ("etag", PyValue.str "e1")] rfl (by simp)).1⟩

/-! ## C5: explicit target precedence -/

/-- Client for the C5 counterexample: the configured default bucket holds
one object, every other target (including the empty string) holds none. -/
def cexClient : MinioClient := fun b =>
  if b = some "defbkt" then Except.ok [⟨"a.txt", "2023-09-09", 1, "e1"⟩]
  else Except.ok []

/-- Decoder for the C5 counterexample: the command names the empty-string
bucket explicitly. -/
def cexEmptyBucketLoads : String → Except String QueryParams :=
  fun _ => Except.ok ⟨some ""⟩

/-- C5 counterexample: with configured default bucket "defbkt", the
explicitly supplied empty-string target does not override — both
`list_objects (some "")` and a `run_query` whose command names bucket ""
return the default bucket's listing, although target "" itself lists
nothing. So the explicit per-call target does not win for every explicit
value. -/
theorem explicit_target_override_counterexample :
    MinioRunner.list_objects ⟨some "defbkt"⟩ cexClient (some "") =
      Except.ok [⟨"a.txt", "2023-09-09", 1, "e1"⟩] ∧
    cexClient (some "") = Except.ok [] ∧
    MinioRunner.run_query ⟨some "defbkt"⟩ cexClient cexEmptyBucketLoads
        "cmd naming the empty bucket" none =
      (some ⟨[⟨"object_name", "string"⟩, ⟨"last_modified", "date"⟩,
              ⟨"size", "integer"⟩, ⟨"etag", "string"⟩],
             [[("object_name", PyValue.str "a.txt"),
               ("last_modified", PyValue.str "2023-09-09"),
               ("size", PyValue.int 1),
               ("etag", PyValue.str "e1")]]⟩, none) := by
  refine ⟨?_, ?_, ?_⟩ <;> rfl

/-- C5 amended: a non-empty explicit per-call target always overrides the
configured default — the listing (and the query result) is entirely
independent of the configured default bucket, both for `list_objects`
with an explicit target and for `run_query` when the decoded command
names a non-empty bucket. -/
theorem explicit_nonempty_target_overrides
    (configuration configuration2 : MinioConfiguration) (client : MinioClient)
    (jsonLoads : String → Except String QueryParams) (query : String)
    (user : Option String) (s : String) (hs : s ≠ "")
    (hparse : jsonLoads query = Except.ok ⟨some s⟩) :
    MinioRunner.list_objects configuration client (some s) =
      MinioRunner.list_objects configuration2 client (some s) ∧
    MinioRunner.run_query configuration client jsonLoads query user =
      MinioRunner.run_query configuration2 client jsonLoads query user := by
  have hres : ∀ c : MinioConfiguration,
      MinioRunner.list_objects c client (some s) =
        MinioRunner.list_objects ⟨some s⟩ client (some s) := by
    intro c
    unfold MinioRunner.list_objects
    rw [pyOr_some_ne s c.bucket hs, pyOr_some_ne s (some s) hs]
  have hlo : MinioRunner.list_objects configuration client (some s) =
      MinioRunner.list_objects configuration2 client (some s) := by
    rw [hres configuration, hres configuration2]
  refine ⟨hlo, ?_⟩
  unfold MinioRunner.run_query
  rw [hparse]
  simp only [dictGetBucket]
  rw [hlo]

/-- Witness for C5's amended theorem: with two different defaults, an
explicit target "tgt" yields identical listings and query results. -/
theorem explicit_nonempty_target_overrides_witness :
    MinioRunner.list_objects ⟨some "d1"⟩ cexClient (some "tgt") =
      MinioRunner.list_objects ⟨some "d2"⟩ cexClient (some "tgt") ∧
    MinioRunner.run_query ⟨some "d1"⟩ cexClient
        (fun _ => Except.ok ⟨some "tgt"⟩) "cmd" none =
      MinioRunner.run_query ⟨some "d2"⟩ cexClient
        (fun _ => Except.ok ⟨some "tgt"⟩) "cmd" none :=
  explicit_nonempty_target_overrides ⟨some "d1"⟩ ⟨some "d2"⟩ cexClient
    (fun _ => Except.ok ⟨some "tgt"⟩) "cmd" none "tgt" (by decide) rfl

/-! ## C3: validation message specificity -/

/-- C3 counterexample: a nonempty request body missing both `query` and
`db_name` is answered with the missing-query message, not the
missing-both message — the "both missing" message is produced only for an
absent or empty body. -/
theorem validation_missing_both_counterexample :
    (post (some [("foo", "1")]) [] (fun _ => none) (fun _ => none)).response =
      Response.fail "Request must include 'query' fields." 400 ∧
    (post (some [("foo", "1")]) [] (fun _ => none) (fun _ => none)).response ≠
      Response.fail "Request must include 'query' and 'db_name' fields." 400 := by
  constructor
  · rfl
  · decide

/-- C3 amended: an absent or empty body yields the missing-both message;
a nonempty body without `query` yields the missing-query message (even if
`db_name` is also absent); a body with `query` but without `db_name`
yields the missing-db_name message — each a distinct message with HTTP
400. -/
theorem validation_messages (query_data : List (String × String))
    (data_sources : List DataSource) (jobObs : Nat → Option Nat)
    (query_results : Nat → Option TabularResult) :
    (post none data_sources jobObs query_results).response =
      Response.fail "Request must include 'query' and 'db_name' fields." 400 ∧
    (query_data = [] →
      (post (some query_data) data_sources jobObs query_results).response =
        Response.fail "Request must include 'query' and 'db_name' fields." 400) ∧
    (query_data ≠ [] → query_data.lookup "query" = none →
      (post (some query_data) data_sources jobObs query_results).response =
        Response.fail "Request must include 'query' fields." 400) ∧
    ((query_data.lookup "query").isSome → query_data.lookup "db_name" = none →
      (post (some query_data) data_sources jobObs query_results).response =
        Response.fail "Request must include 'db_name' fields." 400) := by
  refine ⟨rfl, ?_, ?_, ?_⟩
  · intro h
    subst h
    rfl
  · intro hne hq
    have hempty : query_data.isEmpty = false := by
      cases query_data with
      | nil => exact absurd rfl hne
      | cons a l => rfl
    simp [post, hempty, hq, errMsg, error_messages]
    decide
  · intro hq hd
    obtain ⟨qv, hqv⟩ := Option.isSome_iff_exists.mp hq
    have hempty : query_data.isEmpty = false := by
      cases query_data with
      | nil => simp at hqv
      | cons a l => rfl
    simp [post, hempty, hqv, hd, errMsg, error_messages]
    decide

/-- Witness for C3's amended theorem: concrete bodies exercising the
missing-query and missing-db_name branches. -/
theorem validation_messages_witness :
    (post (some [("foo", "1")]) [] (fun _ => none) (fun _ => none)).response =
      Response.fail "Request must include 'query' fields." 400 ∧
    (post (some [("query", "q")]) [] (fun _ => none) (fun _ => none)).response =
      Response.fail "Request must include 'db_name' fields." 400 :=
  ⟨(validation_messages [("foo", "1")] [] (fun _ => none)
      (fun _ => none)).2.2.1 (by decide) rfl,
   (validation_messages [("query", "q")] [] (fun _ => none)
      (fun _ => none)).2.2.2 (by decide) rfl⟩

/-! ## C4: unregistered runner type -/

/-- C4 counterexample: a data source whose configured type "pg" has no
registered runner (the registry holds only "minio") still gets its job
enqueued — and the handler, polling a job that never completes, answers
408, not database_not_found: the handler resolves the data source by name
only and never consults the storage-runner registry before enqueueing. -/
theorem unregistered_type_still_enqueues_counterexample :
    register_storage ⟨"minio", "MinIO", true⟩ storageRunnersInit "pg" = none ∧
    (post (some [("query", "q"), ("db_name", "db1")]) [⟨"db1", "pg"⟩]
        (fun _ => none) (fun _ => none)).enqueued = true ∧
    (post (some [("query", "q"), ("db_name", "db1")]) [⟨"db1", "pg"⟩]
        (fun _ => none) (fun _ => none)).response ≠
      Response.fail "Database name not found." 404 := by
  refine ⟨rfl, rfl, ?_⟩
  decide

/-- C4 amended: the handler answers database_not_found (HTTP 404) without
enqueueing exactly when no data source with the requested name exists;
when a data source with that name exists, the job is enqueued even if the
source's configured type has no registered runner in the given registry. -/
theorem database_not_found_iff_name_unresolved
    (query_data : List (String × String)) (data_sources : List DataSource)
    (jobObs : Nat → Option Nat) (query_results : Nat → Option TabularResult)
    (hq : (query_data.lookup "query").isSome)
    (hd : (query_data.lookup "db_name").isSome) :
    (data_sources.find?
        (fun d => d.name == (query_data.lookup "db_name").getD "") = none →
      post (some query_data) data_sources jobObs query_results =
        ⟨Response.fail "Database name not found." 404, false, 0, 0⟩) ∧
    (∀ ds (reg : StorageRegistry),
      data_sources.find?
          (fun d => d.name == (query_data.lookup "db_name").getD "") = some ds →
      reg ds.type = none →
      (post (some query_data) data_sources jobObs query_results).enqueued =
        true) := by
  obtain ⟨qv, hqv⟩ := Option.isSome_iff_exists.mp hq
  obtain ⟨dv, hdv⟩ := Option.isSome_iff_exists.mp hd
  have hempty : query_data.isEmpty = false := by
    cases query_data with
    | nil => simp at hqv
    | cons a l => rfl
  constructor
  · intro hfind
    rw [hdv] at hfind
    simp only [Option.getD_some] at hfind
    simp [post, hempty, hqv, hdv, hfind, errMsg, error_messages]
    decide
  · intro ds reg hfind hreg
    rw [hdv] at hfind
    simp only [Option.getD_some] at hfind
    simp only [post, hempty, Bool.false_eq_true, if_false, hqv,
      Option.isNone_some, hdv, Option.getD_some, hfind]
    rcases hres : (poll jobObs 10 0 0).2.2 with _ | v
    · simp [hres]
    · rcases hqr : query_results v with _ | tr <;> simp [hres, hqr]

/-- Witness for C4's amended theorem: an unknown name yields 404 with no
enqueue; a known name with unregistered type "pg" is enqueued. -/
theorem database_not_found_iff_name_unresolved_witness :
    post (some [("query", "q"), ("db_name", "nope")]) [] (fun _ => none)
        (fun _ => none) =
      ⟨Response.fail "Database name not found." 404, false, 0, 0⟩ ∧
    (post (some [("query", "q"), ("db_name", "db1")]) [⟨"db1", "pg"⟩]
        (fun _ => none) (fun _ => none)).enqueued = true :=
  ⟨(database_not_found_iff_name_unresolved [("query", "q"), ("db_name", "nope")]
      [] (fun _ => none) (fun _ => none) (by decide) (by decide)).1 rfl,
   (database_not_found_iff_name_unresolved [("query", "q"), ("db_name", "db1")]
      [⟨"db1", "pg"⟩] (fun _ => none) (fun _ => none) (by decide) (by decide)).2
      ⟨"db1", "pg"⟩ storageRunnersInit rfl rfl⟩

/-! ## C1: bounded poll protocol -/

/-- A job result visible without further refreshing stops the loop at
once, with no sleep and no refresh. -/
theorem poll_eq_of_some (obs : Nat → Option Nat)
    (remaining sleeps refreshes v : Nat) (h : obs refreshes = some v) :
    poll obs remaining sleeps refreshes = (sleeps, refreshes, some v) := by
  unfold poll
  rw [h]

/-- With no result visible and no budget left, the loop stops reporting
no result. -/
theorem poll_eq_of_none_zero (obs : Nat → Option Nat) (sleeps refreshes : Nat)
    (h : obs refreshes = none) :
    poll obs 0 sleeps refreshes = (sleeps, refreshes, none) := by
  unfold poll
  rw [h]

/-- With no result visible and budget left, the loop sleeps once,
refreshes once, and continues. -/
theorem poll_eq_of_none_succ (obs : Nat → Option Nat)
    (remaining sleeps refreshes : Nat) (h : obs refreshes = none) :
    poll obs (remaining + 1) sleeps refreshes =
      poll obs remaining (sleeps + 1) (refreshes + 1) := by
  conv_lhs => unfold poll
  rw [h]

/-- The poll loop performs at most `remaining` further refreshes. -/
theorem poll_refreshes_le (obs : Nat → Option Nat) :
    ∀ remaining sleeps refreshes,
      (poll obs remaining sleeps refreshes).2.1 ≤ refreshes + remaining := by
  intro remaining
  induction remaining with
  | zero =>
    intro s r
    cases h : obs r with
    | some v =>
      rw [poll_eq_of_some obs 0 s r v h]
      show r ≤ r + 0
      omega
    | none =>
      rw [poll_eq_of_none_zero obs s r h]
      show r ≤ r + 0
      omega
  | succ n ih =>
    intro s r
    cases h : obs r with
    | some v =>
      rw [poll_eq_of_some obs (n + 1) s r v h]
      show r ≤ r + (n + 1)
      omega
    | none =>
      rw [poll_eq_of_none_succ obs n s r h]
      have := ih (s + 1) (r + 1)
      omega

/-- The poll loop sleeps exactly once per refresh. -/
theorem poll_sleeps_eq_refreshes (obs : Nat → Option Nat) :
    ∀ remaining sleeps refreshes,
      (poll obs remaining sleeps refreshes).1 + refreshes =
        (poll obs remaining sleeps refreshes).2.1 + sleeps := by
  intro remaining
  induction remaining with
  | zero =>
    intro s r
    cases h : obs r with
    | some v =>
      rw [poll_eq_of_some obs 0 s r v h]
      show s + r = r + s
      omega
    | none =>
      rw [poll_eq_of_none_zero obs s r h]
      show s + r = r + s
      omega
  | succ n ih =>
    intro s r
    cases h : obs r with
    | some v =>
      rw [poll_eq_of_some obs (n + 1) s r v h]
      show s + r = r + s
      omega
    | none =>
      rw [poll_eq_of_none_succ obs n s r h]
      have := ih (s + 1) (r + 1)
      omega

/-- C1: for a submitted request whose backend name resolves (and whose
job is therefore enqueued), the client refreshes the job state at most 10
times, sleeping exactly once per refresh; if the budget ends with no
result reference, the response is HTTP 408 "Query execution timeout.";
if a result reference is obtained and the result store holds it, the
response is HTTP 200 carrying exactly that result's row sequence; if the
reference is present but no stored result exists, the response is HTTP
500 "Query execution failed.". -/
theorem post_poll_protocol (query_data : List (String × String))
    (data_sources : List DataSource) (ds : DataSource)
    (jobObs : Nat → Option Nat) (query_results : Nat → Option TabularResult)
    (hq : (query_data.lookup "query").isSome)
    (hd : (query_data.lookup "db_name").isSome)
    (hds : data_sources.find?
      (fun d => d.name == (query_data.lookup "db_name").getD "") = some ds) :
    (post (some query_data) data_sources jobObs query_results).enqueued = true ∧
    (post (some query_data) data_sources jobObs query_results).refreshes ≤ 10 ∧
    (post (some query_data) data_sources jobObs query_results).sleeps =
      (post (some query_data) data_sources jobObs query_results).refreshes ∧
    ((poll jobObs 10 0 0).2.2 = none →
      (post (some query_data) data_sources jobObs query_results).response =
        Response.fail "Query execution timeout." 408) ∧
    (∀ v tr, (poll jobObs 10 0 0).2.2 = some v → query_results v = some tr →
      (post (some query_data) data_sources jobObs query_results).response =
        Response.success tr.rows) ∧
    (∀ v, (poll jobObs 10 0 0).2.2 = some v → query_results v = none →
      (post (some query_data) data_sources jobObs query_results).response =
        Response.fail "Query execution failed." 500) := by
  obtain ⟨qv, hqv⟩ := Option.isSome_iff_exists.mp hq
  obtain ⟨dv, hdv⟩ := Option.isSome_iff_exists.mp hd
  have hempty : query_data.isEmpty = false := by
    cases query_data with
    | nil => simp at hqv
    | cons a l => rfl
  rw [hdv] at hds
  simp only [Option.getD_some] at hds
  have hrle : (poll jobObs 10 0 0).2.1 ≤ 10 := by
    have := poll_refreshes_le jobObs 10 0 0
    omega
  have hseq : (poll jobObs 10 0 0).1 = (poll jobObs 10 0 0).2.1 := by
    have := poll_sleeps_eq_refreshes jobObs 10 0 0
    omega
  have hpost : post (some query_data) data_sources jobObs query_results =
      match (poll jobObs 10 0 0).2.2 with
      | none => ⟨Response.fail (errMsg "query_timeout") 408, true,
          (poll jobObs 10 0 0).1, (poll jobObs 10 0 0).2.1⟩
      | some query_result_id =>
        match query_results query_result_id with
        | some query_result => ⟨Response.success query_result.rows, true,
            (poll jobObs 10 0 0).1, (poll jobObs 10 0 0).2.1⟩
        | none => ⟨Response.fail (errMsg "query_execution_failed") 500, true,
            (poll jobObs 10 0 0).1, (poll jobObs 10 0 0).2.1⟩ := by
    simp only [post, hempty, Bool.false_eq_true, if_false, hqv,
      Option.isNone_some, hdv, Option.getD_some, hds]
  rcases hres : (poll jobObs 10 0 0).2.2 with _ | v
  · rw [hres] at hpost
    have hpost2 : post (some query_data) data_sources jobObs query_results =
        (⟨Response.fail (errMsg "query_timeout") 408, true,
          (poll jobObs 10 0 0).1, (poll jobObs 10 0 0).2.1⟩ : PostOutcome) :=
      hpost
    refine ⟨by rw [hpost2], by rw [hpost2]; exact hrle,
      by rw [hpost2]; exact hseq, ?_, ?_, ?_⟩
    · intro _
      rw [hpost2]
      show Response.fail (errMsg "query_timeout") 408 =
        Response.fail "Query execution timeout." 408
      decide
    · intro v tr hv _
      exact absurd hv (by simp)
    · intro v hv _
      exact absurd hv (by simp)
  · rw [hres] at hpost
    have hpost2 : post (some query_data) data_sources jobObs query_results =
        (match query_results v with
         | some query_result => ⟨Response.success query_result.rows, true,
             (poll jobObs 10 0 0).1, (poll jobObs 10 0 0).2.1⟩
         | none => ⟨Response.fail (errMsg "query_execution_failed") 500, true,
             (poll jobObs 10 0 0).1, (poll jobObs 10 0 0).2.1⟩) :=
      hpost
    rcases hqr : query_results v with _ | tr
    · rw [hqr] at hpost2
      refine ⟨by rw [hpost2], by rw [hpost2]; exact hrle,
        by rw [hpost2]; exact hseq, ?_, ?_, ?_⟩
      · intro hn
        exact absurd hn (by simp)
      · intro w tw hw hqw
        injection hw with hw
        rw [← hw] at hqw
        rw [hqr] at hqw
        exact absurd hqw (by simp)
      · intro w hw hqw
        rw [hpost2]
        show Response.fail (errMsg "query_execution_failed") 500 =
          Response.fail "Query execution failed." 500
        decide
    · rw [hqr] at hpost2
      refine ⟨by rw [hpost2], by rw [hpost2]; exact hrle,
        by rw [hpost2]; exact hseq, ?_, ?_, ?_⟩
      · intro hn
        exact absurd hn (by simp)
      · intro w tw hw hqw
        injection hw with hw
        rw [← hw] at hqw
        rw [hqr] at hqw
        injection hqw with hqw
        rw [hpost2, ← hqw]
      · intro w hw hqw
        injection hw with hw
        rw [← hw] at hqw
        rw [hqr] at hqw
        exact absurd hqw (by simp)

/-- Witness for C1: a job completing immediately with result reference 7,
whose stored result exists, yields 200 with exactly that result's rows,
with the enqueue performed and the refresh budget respected. -/
theorem post_poll_protocol_witness :
    (post (some [("query", "q"), ("db_name", "db1")]) [⟨"db1", "pg"⟩]
        (fun _ => some 7)
        (fun i => if i = 7
          then some ⟨[⟨"object_name", "string"⟩],
                     [[("object_name", PyValue.str "a")]]⟩
          else none)).response =
      Response.success [[("object_name", PyValue.str "a")]] ∧
    (post (some [("query", "q"), ("db_name", "db1")]) [⟨"db1", "pg"⟩]
        (fun _ => some 7)
        (fun i => if i = 7
          then some ⟨[⟨"object_name", "string"⟩],
                     [[("object_name", PyValue.str "a")]]⟩
          else none)).enqueued = true ∧
    (post (some [("query", "q"), ("db_name", "db1")]) [⟨"db1", "pg"⟩]
        (fun _ => some 7)
        (fun i => if i = 7
          then some ⟨[⟨"object_name", "string"⟩],
                     [[("object_name", PyValue.str "a")]]⟩
          else none)).refreshes ≤ 10 := by
  have h := post_poll_protocol [("query", "q"), ("db_name", "db1")]
    [⟨"db1", "pg"⟩] ⟨"db1", "pg"⟩ (fun _ => some 7)
    (fun i => if i = 7
      then some ⟨[⟨"object_name", "string"⟩],
                 [[("object_name", PyValue.str "a")]]⟩
      else none)
    (by decide) (by decide) rfl
  exact ⟨h.2.2.2.2.1 7 ⟨[⟨"object_name", "string"⟩],
           [[("object_name", PyValue.str "a")]]⟩ rfl rfl,
         h.1, h.2.1⟩
